import Mathlib

/-!
# Verification of the red-bot emulator cog

Shallow embedding of the repository's three Python modules:

* `abstract_emulator.py` — the `AbastractEmulator` lifecycle controller
  (start/run/stop, frame stepping, screenshot accumulation, button
  hold/press, GIF assembly, save/load hooks);
* `gameBoy.py` — the concrete `GameBoy` backend over the external PyBoy
  library;
* `emulator.py` — the bot cog: channel-registration bookkeeping and the
  per-game single-flight lock around chat button commands.

External effects (PyBoy calls, the file system, Discord messages) are
recorded as an event trace; images are opaque and modelled by a counter
handing out fresh identifiers. Python floats used for second counts are
modelled by exact rationals; `int(math.ceil(x))` becomes `Int.ceil`.
Python exceptions become `Except` errors: an operation that raises before
mutating returns `Except.error` and therefore leaves the state unchanged
by construction, matching the source, where every assertion precedes any
mutation.
-/

namespace RedEmulator

/-- Events emitted to the external PyBoy backend / file system, in order.
`gifSaved` records the screenshot frames handed to `Image.save`, in the
order they were accumulated. -/
inductive BackendEvent where
  | sendInput (code : Nat)
  | tick
  | screenshot (imageId : Nat)
  | pyboyStart (gameROMPath : String) (bootROMPath : Option String)
  | pyboyStop
  | pyboyLoadState (path : String)
  | pyboySaveState (path : String)
  | gifSaved (filePath : String) (frames : List Nat)
  deriving DecidableEq, Repr

/-- `ButtonCode` from `abstract_emulator.py`: a name with a press code and a
release code. The PyBoy `windowevent` constants are external; they are
modelled as distinct naturals (their exact values are never relevant). -/
structure ButtonCode where
  name : String
  pressCode : Nat
  releaseCode : Nat
  deriving DecidableEq, Repr

/-- The Python exceptions the embedded code can raise. `nameError` models a
Python `NameError` and carries the undefined identifier. -/
inductive EmuError where
  | alreadyRunning
  | buttonNotRecognized (buttonName : String)
  | noScreenShotFramesSaved
  | notRunning
  | valueError (msg : String)
  | nameError (undefinedName : String)
  deriving DecidableEq, Repr

/-- Python `str.lower`, character by character; `Char.toLower` maps the
uppercase ASCII letters A–Z (codes 65–90) 32 higher and leaves every other
character unchanged, which agrees with `str.lower` on the ASCII button
names this repository uses. -/
def pyLower (s : String) : String := ⟨s.data.map Char.toLower⟩

/-- Python dict assignment `d[k] = v`: replace in place if the key exists,
otherwise append (insertion order is preserved). -/
def dictInsert (k : String) (v : ButtonCode) :
    List (String × ButtonCode) → List (String × ButtonCode)
  | [] => [(k, v)]
  | (k₀, v₀) :: rest =>
      if k₀ = k then (k, v) :: rest else (k₀, v₀) :: dictInsert k v rest

/-- Python dict lookup `d[k]`, as an `Option`. -/
def dictGet (k : String) : List (String × ButtonCode) → Option ButtonCode
  | [] => none
  | (k₀, v₀) :: rest => if k₀ = k then some v₀ else dictGet k rest

/-- The state of one `AbastractEmulator` with the `GameBoy` backend.
`pyboy` models the `_pyboy` field (`some` when a PyBoy instance exists,
`none` for Python `None`); `screenShots` is the private `__screenShots`
list (image identifiers); `buttons` is the private `__buttons` dict;
`nextImage` hands out fresh identifiers for `get_screen_image` results;
`trace` logs the calls made to the external backend. -/
structure EmuState where
  fps : Nat
  screenShots : List Nat
  buttons : List (String × ButtonCode)
  pyboy : Option Unit
  nextImage : Nat
  trace : List BackendEvent
  deriving DecidableEq, Repr

namespace EmuState

/-- `GameBoy.isRunning`: `self._pyboy is not None`. -/
def isRunning (s : EmuState) : Bool := s.pyboy.isSome

/-- `_pyboy.send_input(code)`. -/
def sendInput (code : Nat) (s : EmuState) : EmuState :=
  { s with trace := s.trace ++ [BackendEvent.sendInput code] }

/-- `GameBoy._runForOneFrame`: `self._pyboy.tick()`. -/
def runForOneFrame (s : EmuState) : EmuState :=
  { s with trace := s.trace ++ [BackendEvent.tick] }

/-- `GameBoy._abstractTakeScreenShot`: `self._pyboy.get_screen_image()`,
returning a fresh image identifier. -/
def abstractTakeScreenShot (s : EmuState) : Nat × EmuState :=
  (s.nextImage,
   { s with nextImage := s.nextImage + 1,
            trace := s.trace ++ [BackendEvent.screenshot s.nextImage] })

/-- `AbastractEmulator._takeScreenShot`: assert running, take a screenshot
and append it to `__screenShots`. -/
def takeScreenShot (s : EmuState) : Except EmuError EmuState :=
  if s.isRunning then
    let (img, s₁) := s.abstractTakeScreenShot
    Except.ok { s₁ with screenShots := s₁.screenShots ++ [img] }
  else Except.error EmuError.notRunning

/-- The loop body of `runForXFrames`: run one frame, then take a
screenshot, `n` times. -/
def runFramesLoop : Nat → EmuState → Except EmuError EmuState
  | 0, s => Except.ok s
  | n + 1, s => do
      let s₁ := s.runForOneFrame
      let s₂ ← s₁.takeScreenShot
      runFramesLoop n s₂

/-- `AbastractEmulator.runForXFrames`: reject negative counts, assert
running, return unchanged on zero, else loop. -/
def runForXFrames (numberOfFrames : Int) (s : EmuState) :
    Except EmuError EmuState :=
  if numberOfFrames < 0 then
    Except.error (EmuError.valueError "numberOfFrames must 0 or more")
  else if !s.isRunning then Except.error EmuError.notRunning
  else if numberOfFrames = 0 then Except.ok s
  else runFramesLoop numberOfFrames.toNat s

/-- `AbastractEmulator.runForXSeconds`: reject negative counts, assert
running, then run `int(math.ceil(numberOfSeconds * self._fps))` frames
(`Rat.ceil` is the mathematical ceiling, see `rat_ceil_eq_ceil` below). -/
def runForXSeconds (numberOfSeconds : ℚ) (s : EmuState) :
    Except EmuError EmuState :=
  if numberOfSeconds < 0 then
    Except.error (EmuError.valueError "numberOfSeconds must 0 or more")
  else if !s.isRunning then Except.error EmuError.notRunning
  else s.runForXFrames (numberOfSeconds * (s.fps : ℚ)).ceil

/-- `AbastractEmulator._getButton`: look up `buttonName.lower()` in the
button dict. On a missing key the source executes
`raise ButtonNotReconized(buttonName)`, and `ButtonNotReconized` is an
undefined identifier (the defined class is `ButtonNotRecognized`), so
Python raises `NameError` naming it. -/
def getButton (buttonName : String) (s : EmuState) :
    Except EmuError ButtonCode :=
  match dictGet (pyLower buttonName) s.buttons with
  | some b => Except.ok b
  | none => Except.error (EmuError.nameError "ButtonNotReconized")

/-- `GameBoy._abstractHoldButton`: press, run for the given seconds,
release, run one more second. -/
def abstractHoldButton (button : ButtonCode) (numberOfSeconds : ℚ)
    (s : EmuState) : Except EmuError EmuState := do
  let s₁ := s.sendInput button.pressCode
  let s₂ ← s₁.runForXSeconds numberOfSeconds
  let s₃ := s₂.sendInput button.releaseCode
  s₃.runForXSeconds 1

/-- `GameBoy._abstractPressButton`: press, run two frames, release, run one
second. -/
def abstractPressButton (button : ButtonCode) (s : EmuState) :
    Except EmuError EmuState := do
  let s₁ := s.sendInput button.pressCode
  let s₂ ← s₁.runForXFrames 2
  let s₃ := s₂.sendInput button.releaseCode
  s₃.runForXSeconds 1

/-- `AbastractEmulator.holdButton`: assert running, reject negative
seconds, resolve the button, delegate to the backend. -/
def holdButton (buttonName : String) (numberOfSeconds : ℚ)
    (s : EmuState) : Except EmuError EmuState := do
  if !s.isRunning then throw EmuError.notRunning
  if numberOfSeconds < 0 then
    throw (EmuError.valueError "numberOfSeconds must be greater than 0")
  let button ← s.getButton buttonName
  s.abstractHoldButton button numberOfSeconds

/-- `AbastractEmulator.pressButton`: assert running, resolve the button,
delegate to the backend. -/
def pressButton (buttonName : String) (s : EmuState) :
    Except EmuError EmuState := do
  if !s.isRunning then throw EmuError.notRunning
  let button ← s.getButton buttonName
  s.abstractPressButton button

/-- `AbastractEmulator._registerButton`: store the button under its
lowercased name. -/
def registerButton (button : ButtonCode) (s : EmuState) : EmuState :=
  { s with buttons := dictInsert (pyLower button.name) button s.buttons }

/-- `AbastractEmulator.buttonNames`: the dict keys, lowercased. -/
def buttonNames (s : EmuState) : List String :=
  s.buttons.map fun p => pyLower p.1

/-- `AbastractEmulator.makeGIF`: assert running, raise
`NoScreenShotFramesSaved` on an empty list, else save all accumulated
frames in order and reset `__screenShots` to empty. -/
def makeGIF (filePath : String) (s : EmuState) : Except EmuError EmuState :=
  if !s.isRunning then Except.error EmuError.notRunning
  else if s.screenShots.length = 0 then
    Except.error EmuError.noScreenShotFramesSaved
  else
    Except.ok { s with
      screenShots := [],
      trace := s.trace ++ [BackendEvent.gifSaved filePath s.screenShots] }

/-- `GameBoy._abstractStart`: construct the PyBoy instance. -/
def abstractStart (gameROMPath : String) (bootROMPath : Option String)
    (s : EmuState) : EmuState :=
  { s with pyboy := some (),
           trace := s.trace ++ [BackendEvent.pyboyStart gameROMPath bootROMPath] }

/-- `GameBoy.loadState`: hand the state file to `_pyboy.load_state`. -/
def loadState (path : String) (s : EmuState) : EmuState :=
  { s with trace := s.trace ++ [BackendEvent.pyboyLoadState path] }

/-- `GameBoy.saveState`: hand the state file to `_pyboy.save_state`. -/
def saveState (path : String) (s : EmuState) : EmuState :=
  { s with trace := s.trace ++ [BackendEvent.pyboySaveState path] }

/-- `GameBoy._abstractStop`: stop PyBoy and set `_pyboy = None`. -/
def abstractStop (s : EmuState) : EmuState :=
  { s with pyboy := none, trace := s.trace ++ [BackendEvent.pyboyStop] }

/-- `AbastractEmulator.start`: reject a negative run time, assert not
running, start the backend, load the save state when one is given, then
run for the given seconds. -/
def start (gameROMPath : String) (bootROMPath : Option String)
    (saveStateFilePath : Option String) (numberOfSecondsToRun : ℚ)
    (s : EmuState) : Except EmuError EmuState := do
  if numberOfSecondsToRun < 0 then
    throw (EmuError.valueError "numberOfSecondsToRun must be 0 or more")
  if s.isRunning then throw EmuError.alreadyRunning
  let s₁ := s.abstractStart gameROMPath bootROMPath
  let s₂ := match saveStateFilePath with
    | some p => s₁.loadState p
    | none => s₁
  s₂.runForXSeconds numberOfSecondsToRun

/-- `AbastractEmulator.stop`: assert running, save the state when a path is
given, then stop the backend. -/
def stop (saveStateFilePath : Option String) (s : EmuState) :
    Except EmuError EmuState := do
  if !s.isRunning then throw EmuError.notRunning
  let s₁ := match saveStateFilePath with
    | some p => s.saveState p
    | none => s
  Except.ok s₁.abstractStop

end EmuState

/-- The button table registered by `GameBoy.__init__`, in source order.
The press/release codes stand for the PyBoy `windowevent` constants; they
are modelled as the distinct naturals 0–13. -/
def gameBoyButtons : List ButtonCode :=
  [⟨"A", 0, 1⟩, ⟨"B", 2, 3⟩,
   ⟨"Se", 4, 5⟩, ⟨"Select", 4, 5⟩,
   ⟨"St", 6, 7⟩, ⟨"Start", 6, 7⟩,
   ⟨"U", 8, 9⟩, ⟨"Up", 8, 9⟩,
   ⟨"D", 10, 11⟩, ⟨"Down", 10, 11⟩,
   ⟨"L", 12, 13⟩, ⟨"Left", 12, 13⟩,
   ⟨"R", 14, 15⟩, ⟨"Right", 14, 15⟩]

/-- `GameBoy.__init__`: fps 60, no PyBoy instance yet, no screenshots, and
the fourteen buttons registered in order. -/
def gameBoyInit : EmuState :=
  gameBoyButtons.foldl (fun s b => s.registerButton b)
    { fps := 60, screenShots := [], buttons := [], pyboy := none,
      nextImage := 0, trace := [] }

/-- The sequence of backend events emitted by running `n` frames when the
next fresh image identifier is `a`: each frame is one `tick` immediately
followed by one `screenshot`. -/
def frameEvents : Nat → Nat → List BackendEvent
  | _, 0 => []
  | a, n + 1 =>
      BackendEvent.tick :: BackendEvent.screenshot a :: frameEvents (a + 1) n

/-- Closed form of the `runForXFrames` loop: the state after `n` iterations
of run-one-frame-then-screenshot. -/
def framesResult : Nat → EmuState → EmuState
  | 0, s => s
  | n + 1, s =>
      framesResult n
        { s with nextImage := s.nextImage + 1,
                 screenShots := s.screenShots ++ [s.nextImage],
                 trace := s.trace ++
                   [BackendEvent.tick, BackendEvent.screenshot s.nextImage] }

/-- The fresh image identifiers handed out by `n` screenshots starting at
`a`. -/
def imageIds : Nat → Nat → List Nat
  | _, 0 => []
  | a, n + 1 => a :: imageIds (a + 1) n

/-- Whether a backend event is a single-frame step (`_pyboy.tick()`). -/
def isTick : BackendEvent → Bool
  | BackendEvent.tick => true
  | _ => false

/-- Whether a backend event is a screenshot capture. -/
def isShot : BackendEvent → Bool
  | BackendEvent.screenshot _ => true
  | _ => false

/-- A concrete `GameBoy` controller that has been started (the result of
`start` on a fresh `GameBoy` with zero seconds to run, see
`gameBoy_start_running` in the C9 theorem's witness chain). -/
def demoRunning : EmuState :=
  { gameBoyInit with pyboy := some (),
                     trace := [BackendEvent.pyboyStart "demo.gb" none] }

/-- The two observable lifecycle states of the controller: `isRunning` is a
boolean, so the state machine distinguishes exactly these. -/
inductive RunState where
  | notRunning
  | running
  deriving DecidableEq, Repr, Fintype

/-- The lifecycle state a controller state is in. -/
def runStateOf (s : EmuState) : RunState :=
  if s.isRunning then RunState.running else RunState.notRunning

/-! ## The bot cog (`emulator.py`): persisted configuration -/

/-- A game definition as stored by `setup_set_definition`:
`game_defs[name] = {"bootROM": bootROM, "gameROM": gameROM}`. -/
structure GameDef where
  bootROM : String
  gameROM : String
  deriving DecidableEq, Repr

/-- Python dict lookup as an `Option`, for arbitrary key/value types. -/
def assocGet {α β : Type} [DecidableEq α] (k : α) :
    List (α × β) → Option β
  | [] => none
  | (k₀, v₀) :: rest => if k₀ = k then some v₀ else assocGet k rest

/-- Python dict assignment `d[k] = v`: replace in place, else append. -/
def assocInsert {α β : Type} [DecidableEq α] (k : α) (v : β) :
    List (α × β) → List (α × β)
  | [] => [(k, v)]
  | (k₀, v₀) :: rest =>
      if k₀ = k then (k, v) :: rest else (k₀, v₀) :: assocInsert k v rest

/-- Python `del d[k]`: drop the binding of `k`. -/
def assocErase {α β : Type} [DecidableEq α] (k : α) :
    List (α × β) → List (α × β)
  | [] => []
  | (k₀, v₀) :: rest =>
      if k₀ = k then rest else (k₀, v₀) :: assocErase k rest

/-- The persisted global configuration of the cog (`_DEFAULT_GLOBAL`):
game definitions, both channel-registration maps, and the auto-load list.
Channel ids are naturals; `channels_to_defs` keys them by `str(channel.id)`
in Python and `defs_to_channels` stores the raw ids — both are the same
natural here. -/
structure CogConfig where
  game_defs : List (String × GameDef)
  channels_to_defs : List (Nat × String)
  defs_to_channels : List (String × List Nat)
  auto_loads : List String
  deriving DecidableEq, Repr

/-- How a cog command run ends: normally, by sending an error embed and
returning, or by raising a Python exception. -/
inductive CogOutcome where
  | ok
  | errorMessage (title : String)
  | keyError (key : String)
  | nameError (undefinedName : String)
  | runtimeErrorDictChangedSize
  deriving DecidableEq, Repr

/-- `Emulator.setup_register`, as its effect on the persisted config.
The second guard's error message interpolates `def_name`, which is
undefined at that point, so that path raises `NameError`; the happy path
persists `channels_to_defs` first and then appends the channel to
`defs_to_channels[definition_name]` (a `KeyError` if that key is absent,
after the first map was already persisted). -/
def setup_register (channel : Nat) (definition_name : String)
    (c : CogConfig) : CogConfig × CogOutcome :=
  if (assocGet definition_name c.game_defs).isNone then
    (c, CogOutcome.errorMessage "Improper Definition Name")
  else if (assocGet channel c.channels_to_defs).isSome then
    (c, CogOutcome.nameError "def_name")
  else
    let c₁ := { c with
      channels_to_defs := assocInsert channel definition_name c.channels_to_defs }
    match assocGet definition_name c₁.defs_to_channels with
    | none => (c₁, CogOutcome.keyError definition_name)
    | some chans =>
        ({ c₁ with defs_to_channels :=
            assocInsert definition_name (chans ++ [channel]) c₁.defs_to_channels },
         CogOutcome.ok)

/-- `Emulator.setup_unregister`: remove the requesting channel from
`channels_to_defs` (persisted first), then filter it out of its game's
list in `defs_to_channels`. -/
def setup_unregister (channel : Nat) (c : CogConfig) :
    CogConfig × CogOutcome :=
  match assocGet channel c.channels_to_defs with
  | none => (c, CogOutcome.errorMessage "Channel Not Registered")
  | some def_name =>
      let c₁ := { c with
        channels_to_defs := assocErase channel c.channels_to_defs }
      match assocGet def_name c₁.defs_to_channels with
      | none => (c₁, CogOutcome.keyError def_name)
      | some chans =>
          let kept := chans.filter fun cid => cid != channel
          ({ c₁ with defs_to_channels :=
              assocInsert def_name kept c₁.defs_to_channels },
           CogOutcome.ok)

/-- `Emulator.setup_set_definition`, as its effect on the persisted config.
The two `os.path.exists` checks on the ROM files are modelled by the
oracles `bootROMExists` and `gameROMExists` on the ROM names (the path
joins only prefix a fixed directory). -/
def setup_set_definition (bootROMExists gameROMExists : String → Bool)
    (definition_name bootROM gameROM : String) (c : CogConfig) :
    CogConfig × CogOutcome :=
  if !bootROMExists bootROM then
    (c, CogOutcome.errorMessage "Invalid Boot ROM")
  else if !gameROMExists gameROM then
    (c, CogOutcome.errorMessage "Invalid Game ROM")
  else if (assocGet definition_name c.game_defs).isSome then
    (c, CogOutcome.errorMessage "Name Conflict")
  else
    ({ c with
        game_defs := assocInsert definition_name ⟨bootROM, gameROM⟩ c.game_defs,
        defs_to_channels := assocInsert definition_name [] c.defs_to_channels },
     CogOutcome.ok)

/-- `Emulator.setup_delete_definition`, as its effect on the persisted
config, in the case where no emulator instance exists for the definition
(`self._locks.get(definition_name)` is `None`, so the shutdown branch is
skipped). The guard for an unknown name interpolates the undefined
variable `name`, raising `NameError`; the declined-confirmation path calls
`contextlib.suppress` with `contextlib` never imported, raising
`NameError`. On the confirmed path the code persists the `game_defs`
removal and then runs
`for channel_id in channels_to_defs.keys(): del channels_to_defs[channel_id]`,
which raises `RuntimeError` (dictionary changed size during iteration) as
soon as the dict is non-empty, so the two channel maps are only updated
when `channels_to_defs` is empty. -/
def setup_delete_definition (confirmed : Bool) (definition_name : String)
    (c : CogConfig) : CogConfig × CogOutcome :=
  if (assocGet definition_name c.game_defs).isNone then
    (c, CogOutcome.nameError "name")
  else if !confirmed then
    (c, CogOutcome.nameError "contextlib")
  else
    let c₁ := { c with game_defs := assocErase definition_name c.game_defs }
    if c₁.channels_to_defs ≠ [] then
      (c₁, CogOutcome.runtimeErrorDictChangedSize)
    else
      ({ c₁ with
          defs_to_channels := assocErase definition_name c₁.defs_to_channels },
       CogOutcome.ok)

/-- Mutual consistency of the two channel maps: a channel is mapped to a
definition in `channels_to_defs` exactly when it appears in that
definition's list in `defs_to_channels`. -/
def consistentMaps (c : CogConfig) : Prop :=
  ∀ chan defName,
    assocGet chan c.channels_to_defs = some defName ↔
      chan ∈ (assocGet defName c.defs_to_channels).getD []

/-! ## The bot cog (`emulator.py`): per-game single-flight lock

`on_message` guards the button-command body with
`if not self._locks[def_name].locked(): async with self._locks[def_name]:`.
The tasks handling messages for one game interleave only at `await`
points; `asyncio.Lock.acquire` on a free lock takes its fast path without
awaiting, so the `.locked()` check plus the acquisition form one atomic
step, as does the release. The critical-section body is a sequence of
calls, modelled as atomic actions appended to a global log. -/

/-- One sequential call inside the `on_message` critical section. -/
inductive HandlerAct where
  | pressButton (button : String)
  | holdButton (button : String) (seconds : ℚ)
  | runForTenSeconds
  | saveMainState
  | sendScreenshot
  deriving DecidableEq, Repr

/-- `min(3, max(1, n))`, the clamp applied to a press count. -/
def clampPressCount (n : Int) : Int := min 3 (max 1 n)

/-- `min(3, max(0.5, q))`, the clamp applied to a hold duration. -/
def clampHoldSeconds (q : ℚ) : ℚ := min 3 (max (1 / 2) q)

/-- A parsed button command from a chat message. -/
inductive ButtonAction where
  | press (count : Int)
  | hold (seconds : ℚ)
  deriving DecidableEq, Repr

/-- The critical-section body of `on_message` for a parsed command:
for `p`, the clamped number of `pressButton` calls; for `h`, one
`holdButton` call; then `runForXSeconds(10)`, the main-state save, and the
screenshot send. -/
def handlerActs (button : String) : ButtonAction → List HandlerAct
  | ButtonAction.press n =>
      List.replicate (clampPressCount n).toNat (HandlerAct.pressButton button) ++
        [HandlerAct.runForTenSeconds, HandlerAct.saveMainState,
         HandlerAct.sendScreenshot]
  | ButtonAction.hold q =>
      [HandlerAct.holdButton button (clampHoldSeconds q),
       HandlerAct.runForTenSeconds, HandlerAct.saveMainState,
       HandlerAct.sendScreenshot]

/-- Where one `on_message` task for the game stands: `arrived` is just
before the `.locked()` check with its critical-section body pending;
`inCritical` is inside the `async with` with the remaining calls;
`dropped` saw the lock held and returned; `finished` released the lock. -/
inductive TaskState where
  | arrived (body : List HandlerAct)
  | inCritical (pending : List HandlerAct)
  | dropped
  | finished
  deriving DecidableEq, Repr

/-- Whether a task is inside the critical section. -/
def TaskState.isCritical : TaskState → Bool
  | TaskState.inCritical _ => true
  | _ => false

/-- The lock, the tasks, and the log of executed critical-section calls
(tagged with the task that made them) for one game definition. -/
structure GameLockSystem where
  locked : Bool
  tasks : Nat → TaskState
  log : List (Nat × HandlerAct)

/-- The interleaving steps of the `on_message` tasks of one game. -/
inductive OnMessageStep : GameLockSystem → GameLockSystem → Prop
  | enter (sys : GameLockSystem) (i : Nat) (body : List HandlerAct) :
      sys.tasks i = TaskState.arrived body → sys.locked = false →
      OnMessageStep sys
        { sys with locked := true,
                   tasks := Function.update sys.tasks i (TaskState.inCritical body) }
  | drop (sys : GameLockSystem) (i : Nat) (body : List HandlerAct) :
      sys.tasks i = TaskState.arrived body → sys.locked = true →
      OnMessageStep sys
        { sys with tasks := Function.update sys.tasks i TaskState.dropped }
  | work (sys : GameLockSystem) (i : Nat) (a : HandlerAct)
      (rest : List HandlerAct) :
      sys.tasks i = TaskState.inCritical (a :: rest) →
      OnMessageStep sys
        { sys with tasks := Function.update sys.tasks i (TaskState.inCritical rest),
                   log := sys.log ++ [(i, a)] }
  | exit (sys : GameLockSystem) (i : Nat) :
      sys.tasks i = TaskState.inCritical [] →
      OnMessageStep sys
        { sys with locked := false,
                   tasks := Function.update sys.tasks i TaskState.finished }

/-- The initial system for a list of pending button commands: lock free,
task `i` about to handle the `i`-th command, empty log. -/
def lockInit (bodies : List (List HandlerAct)) : GameLockSystem :=
  { locked := false,
    tasks := fun i => match bodies.get? i with
      | some b => TaskState.arrived b
      | none => TaskState.finished,
    log := [] }

/-- Reachability under the interleaving steps. -/
def LockReachable (sys sys' : GameLockSystem) : Prop :=
  Relation.ReflTransGen OnMessageStep sys sys'

/-- At most one `on_message` task for the game is inside the critical
section. -/
def mutualExclusion (sys : GameLockSystem) : Prop :=
  ∀ i j, (sys.tasks i).isCritical = true → (sys.tasks j).isCritical = true →
    i = j

/-- When the lock is free no task is inside the critical section (the
auxiliary invariant that makes `mutualExclusion` inductive). -/
def lockConsistent (sys : GameLockSystem) : Prop :=
  sys.locked = false → ∀ i, (sys.tasks i).isCritical = false

/-- Two pending button commands for one game: task 0 presses "a" twice,
task 1 holds "b" for one second. -/
def demoBodies : List (List HandlerAct) :=
  [handlerActs "a" (ButtonAction.press 2),
   handlerActs "b" (ButtonAction.hold 1)]

/-- The demo system after task 0 has passed the `.locked()` check and
acquired the lock. -/
def demoLockSys : GameLockSystem :=
  { locked := true,
    tasks := Function.update (lockInit demoBodies).tasks 0
      (TaskState.inCritical (handlerActs "a" (ButtonAction.press 2))),
    log := [] }

/-- The demo system after task 1 then arrived, saw the lock held, and was
dropped. -/
def demoDroppedSys : GameLockSystem :=
  { demoLockSys with
    tasks := Function.update demoLockSys.tasks 1 TaskState.dropped }

/-- A concrete configuration: two game definitions, each registered to one
channel — the registration maps are mutually consistent. -/
def demoConfig : CogConfig :=
  { game_defs := [("alpha", ⟨"boot.gb", "alpha.gb"⟩),
                  ("beta", ⟨"boot.gb", "beta.gb"⟩)],
    channels_to_defs := [(1, "alpha"), (2, "beta")],
    defs_to_channels := [("alpha", [1]), ("beta", [2])],
    auto_loads := [] }

/-! ## General lemmas -/

instance instDecEqExcept {ε α : Type} [DecidableEq ε] [DecidableEq α] :
    DecidableEq (Except ε α) := fun x y =>
  match x, y with
  | Except.ok a, Except.ok b =>
      if h : a = b then isTrue (by rw [h]) else isFalse (by simp [h])
  | Except.error a, Except.error b =>
      if h : a = b then isTrue (by rw [h]) else isFalse (by simp [h])
  | Except.ok _, Except.error _ => isFalse (by simp)
  | Except.error _, Except.ok _ => isFalse (by simp)

theorem neg_ediv_of_not_dvd {a b : ℤ} (hb : 0 < b) (h : ¬ b ∣ a) :
    -a / b = -(a / b) - 1 := by
  have h0 := Int.ediv_add_emod a b
  have h1 := Int.emod_nonneg a (ne_of_gt hb)
  have h2 := Int.emod_lt_of_pos a hb
  have h3 : a % b ≠ 0 := fun hz => h (Int.dvd_of_emod_eq_zero hz)
  have key : -a = (b - a % b) + b * (-(a / b) - 1) := by linear_combination h0
  rw [key, Int.add_mul_ediv_left _ _ (ne_of_gt hb),
    Int.ediv_eq_zero_of_lt (by omega) (by omega)]
  omega

/-- `Rat.ceil` is the mathematical ceiling. -/
theorem rat_ceil_eq_ceil (q : ℚ) : q.ceil = ⌈q⌉ := by
  have hflip : ⌈q⌉ = -⌊-q⌋ := by
    rw [show q = -(-q) from (neg_neg q).symm, Int.ceil_neg, neg_neg]
  have hfloor : ⌊-q⌋ = (-q).num / ((-q).den : ℤ) := Rat.floor_def
  have hnum : (-q).num = -q.num := Rat.neg_num q
  have hden : (-q).den = q.den := Rat.neg_den q
  rw [hflip, hfloor, hnum, hden]
  by_cases hone : q.den = 1
  · simp [Rat.ceil, hone]
  · have hpos : (0 : ℤ) < (q.den : ℤ) := Int.ofNat_pos.mpr q.den_pos
    have hdvd : ¬ ((q.den : ℤ) ∣ q.num) := by
      intro hd
      have habs : q.den ∣ q.num.natAbs := by
        have := Int.natAbs_dvd_natAbs.mpr hd
        simpa using this
      exact hone (Nat.Coprime.eq_one_of_dvd q.reduced.symm habs)
    rw [Rat.ceil, if_neg hone, neg_ediv_of_not_dvd hpos hdvd]
    omega

/-- `Char.toLower` is idempotent: lowercased characters are fixed. -/
theorem charToLower_idem (c : Char) : c.toLower.toLower = c.toLower := by
  unfold Char.toLower
  by_cases h : 65 ≤ c.toNat ∧ c.toNat ≤ 90
  · rw [if_pos h]
    have hv : (c.toNat + 32).isValidChar := Or.inl (by omega)
    have ht : (Char.ofNat (c.toNat + 32)).toNat = c.toNat + 32 := by
      rw [Char.ofNat, dif_pos hv]; rfl
    rw [if_neg]
    rw [ht]; omega
  · rw [if_neg h, if_neg h]

/-- Python `str.lower` is idempotent. -/
theorem pyLower_idem (s : String) : pyLower (pyLower s) = pyLower s := by
  unfold pyLower
  simp [List.map_map, Function.comp_def, charToLower_idem]

/-! ## Running frames: the loop and its closed form -/

theorem framesResult_spec (n : Nat) (s : EmuState) :
    (framesResult n s).fps = s.fps ∧
    (framesResult n s).buttons = s.buttons ∧
    (framesResult n s).pyboy = s.pyboy ∧
    (framesResult n s).nextImage = s.nextImage + n ∧
    (framesResult n s).screenShots = s.screenShots ++ imageIds s.nextImage n ∧
    (framesResult n s).trace = s.trace ++ frameEvents s.nextImage n := by
  induction n generalizing s with
  | zero => simp [framesResult, imageIds, frameEvents]
  | succ n ih =>
    obtain ⟨h1, h2, h3, h4, h5, h6⟩ :=
      ih { s with nextImage := s.nextImage + 1,
                  screenShots := s.screenShots ++ [s.nextImage],
                  trace := s.trace ++
                    [BackendEvent.tick, BackendEvent.screenshot s.nextImage] }
    simp only [framesResult]
    refine ⟨h1, h2, h3, ?_, ?_, ?_⟩
    · simp only at h4
      rw [h4]; omega
    · simp only at h5
      rw [h5]
      simp [imageIds]
    · simp only at h6
      rw [h6]
      simp [frameEvents]

theorem runFramesLoop_eq (n : Nat) (s : EmuState) (h : s.isRunning = true) :
    EmuState.runFramesLoop n s = Except.ok (framesResult n s) := by
  induction n generalizing s with
  | zero => rfl
  | succ n ih =>
    have hpy : s.pyboy = some () := by
      have h' := h
      simp only [EmuState.isRunning, Option.isSome_iff_exists] at h'
      obtain ⟨u, hu⟩ := h'
      cases u; exact hu
    have hstep : (s.runForOneFrame).takeScreenShot =
        Except.ok
          { s with
            nextImage := s.nextImage + 1,
            screenShots := s.screenShots ++ [s.nextImage],
            trace := s.trace ++
              [BackendEvent.tick, BackendEvent.screenshot s.nextImage] } := by
      simp [EmuState.takeScreenShot, EmuState.abstractTakeScreenShot,
        EmuState.runForOneFrame, EmuState.isRunning, hpy]
    simp only [EmuState.runFramesLoop, hstep, Bind.bind, Except.bind]
    rw [ih _ (by simpa [EmuState.isRunning] using h)]
    simp only [framesResult]

theorem frameEvents_counts (a n : Nat) :
    ((frameEvents a n).countP isTick = n ∧
     (frameEvents a n).countP isShot = n) ∧
    (imageIds a n).length = n := by
  induction n generalizing a with
  | zero => simp [frameEvents, imageIds]
  | succ n ih =>
    obtain ⟨⟨h1, h2⟩, h3⟩ := ih (a + 1)
    refine ⟨⟨?_, ?_⟩, ?_⟩ <;>
      simp [frameEvents, imageIds, List.countP_cons, isTick, isShot, h1, h2, h3]

theorem runForXFrames_ok (s : EmuState) (n : Int) (h : s.isRunning = true)
    (hn : 0 ≤ n) :
    s.runForXFrames n = Except.ok (framesResult n.toNat s) := by
  unfold EmuState.runForXFrames
  rw [if_neg (not_lt.mpr hn), if_neg (by simp [h])]
  by_cases h0 : n = 0
  · rw [if_pos h0]; subst h0; rfl
  · rw [if_neg h0]; exact runFramesLoop_eq _ _ h

theorem dictGet_dictInsert_self (k : String) (v : ButtonCode)
    (l : List (String × ButtonCode)) :
    dictGet k (dictInsert k v l) = some v := by
  induction l with
  | nil => simp [dictInsert, dictGet]
  | cons p rest ih =>
    by_cases hk : p.1 = k
    · simp [dictInsert, dictGet, hk]
    · simp [dictInsert, dictGet, hk, ih]

theorem getButton_lower (s : EmuState) (name : String) :
    s.getButton (pyLower name) = s.getButton name := by
  unfold EmuState.getButton
  rw [pyLower_idem]

/-! ## The single-flight lock: invariant preservation -/

theorem lockInvariant_step {sys sys' : GameLockSystem}
    (h : OnMessageStep sys sys')
    (hc : lockConsistent sys) (hm : mutualExclusion sys) :
    lockConsistent sys' ∧ mutualExclusion sys' := by
  cases h with
  | enter i body harr hfree =>
    constructor
    · intro hl
      simp at hl
    · intro a b ha hb
      simp only [Function.update_apply] at ha hb
      by_cases hai : a = i
      · by_cases hbi : b = i
        · rw [hai, hbi]
        · simp only [if_neg hbi] at hb
          exact absurd (hc hfree b) (by simp [hb])
      · simp only [if_neg hai] at ha
        exact absurd (hc hfree a) (by simp [ha])
  | drop i body harr hheld =>
    constructor
    · intro hl
      simp [hheld] at hl
    · intro a b ha hb
      simp only [Function.update_apply] at ha hb
      by_cases hai : a = i
      · simp only [if_pos hai] at ha
        simp [TaskState.isCritical] at ha
      · simp only [if_neg hai] at ha
        by_cases hbi : b = i
        · simp only [if_pos hbi] at hb
          simp [TaskState.isCritical] at hb
        · simp only [if_neg hbi] at hb
          exact hm a b ha hb
  | work i a rest harr =>
    have hcrit : (sys.tasks i).isCritical = true := by rw [harr]; rfl
    constructor
    · intro hl
      exact absurd (hc hl i) (by simp [hcrit])
    · intro x y hx hy
      simp only [Function.update_apply] at hx hy
      by_cases hxi : x = i
      · by_cases hyi : y = i
        · rw [hxi, hyi]
        · simp only [if_neg hyi] at hy
          exact hxi.trans (hm i y hcrit hy)
      · simp only [if_neg hxi] at hx
        by_cases hyi : y = i
        · rw [hyi]
          exact hm x i hx hcrit
        · simp only [if_neg hyi] at hy
          exact hm x y hx hy
  | exit i harr =>
    have hcrit : (sys.tasks i).isCritical = true := by rw [harr]; rfl
    constructor
    · intro _ j
      simp only [Function.update_apply]
      by_cases hj : j = i
      · simp [hj, TaskState.isCritical]
      · simp only [if_neg hj]
        by_cases hcj : (sys.tasks j).isCritical = true
        · exact absurd (hm j i hcj hcrit) hj
        · simpa using hcj
    · intro x y hx hy
      simp only [Function.update_apply] at hx hy
      by_cases hxi : x = i
      · simp only [if_pos hxi] at hx
        simp [TaskState.isCritical] at hx
      · simp only [if_neg hxi] at hx
        by_cases hyi : y = i
        · simp only [if_pos hyi] at hy
          simp [TaskState.isCritical] at hy
        · simp only [if_neg hyi] at hy
          exact hm x y hx hy

theorem lockInvariant_init (bodies : List (List HandlerAct)) :
    lockConsistent (lockInit bodies) ∧ mutualExclusion (lockInit bodies) := by
  constructor
  · intro _ i
    simp only [lockInit]
    cases bodies.get? i <;> rfl
  · intro a b ha _
    exfalso
    simp only [lockInit] at ha
    cases h : bodies.get? a <;> rw [h] at ha <;> simp [TaskState.isCritical] at ha

theorem lockInvariant_reachable (bodies : List (List HandlerAct))
    (sys : GameLockSystem) (h : LockReachable (lockInit bodies) sys) :
    lockConsistent sys ∧ mutualExclusion sys := by
  induction h with
  | refl => exact lockInvariant_init bodies
  | tail _ hstep ih => exact lockInvariant_step hstep ih.1 ih.2

theorem lockStep_drop_preserves_log {sys sys' : GameLockSystem}
    (h : OnMessageStep sys sys') (i : Nat)
    (hbefore : sys.tasks i ≠ TaskState.dropped)
    (hafter : sys'.tasks i = TaskState.dropped) :
    sys'.log = sys.log := by
  cases h with
  | enter j body harr hfree => rfl
  | drop j body harr hheld => rfl
  | work j a rest harr =>
    exfalso
    simp only [Function.update_apply] at hafter
    by_cases hij : i = j
    · simp [if_pos hij] at hafter
    · simp only [if_neg hij] at hafter
      exact hbefore hafter
  | exit j harr => rfl

@[simp] theorem except_throw_bind {ε α β : Type} (e : ε)
    (f : α → Except ε β) : (throw e : Except ε α) >>= f = Except.error e :=
  rfl

theorem runForXSeconds_eq (s : EmuState) (q : ℚ)
    (hrun : s.isRunning = true) (hq : 0 ≤ q) :
    s.runForXSeconds q = s.runForXFrames (q * (s.fps : ℚ)).ceil := by
  unfold EmuState.runForXSeconds
  rw [if_neg (not_lt.mpr hq), if_neg (by simp [hrun])]

theorem ceil_seconds_nonneg (q : ℚ) (m : Nat) (hq : 0 ≤ q) :
    0 ≤ (q * (m : ℚ)).ceil := by
  rw [rat_ceil_eq_ceil]
  exact Int.ceil_nonneg (mul_nonneg hq (by positivity))

theorem start_result (s : EmuState) (g : String) (b save : Option String)
    (q : ℚ) (hq : 0 ≤ q) (hs : s.isRunning = false) :
    ∃ s', s.start g b save q = Except.ok s' ∧ s'.isRunning = true ∧
      s'.trace = s.trace ++ [BackendEvent.pyboyStart g b] ++
        (match save with
         | some pp => [BackendEvent.pyboyLoadState pp]
         | none => []) ++
        frameEvents s.nextImage (q * (s.fps : ℚ)).ceil.toNat := by
  have hq2 : ¬ q < 0 := not_lt.mpr hq
  cases save with
  | none =>
    have hrun2 : (s.abstractStart g b).isRunning = true := rfl
    have hceil : 0 ≤ (q * ((s.abstractStart g b).fps : ℚ)).ceil :=
      ceil_seconds_nonneg q _ hq
    refine ⟨framesResult (q * (s.fps : ℚ)).ceil.toNat (s.abstractStart g b),
      ?_, ?_, ?_⟩
    · simp only [EmuState.start, hq2, if_false, hs, Bool.false_eq_true,
        runForXSeconds_eq _ q hrun2 hq]
      exact runForXFrames_ok _ _ hrun2 hceil
    · have h := (framesResult_spec (q * (s.fps : ℚ)).ceil.toNat
        (s.abstractStart g b)).2.2.1
      simp only [EmuState.isRunning]
      rw [h]
      rfl
    · have h := (framesResult_spec (q * (s.fps : ℚ)).ceil.toNat
        (s.abstractStart g b)).2.2.2.2.2
      rw [h]
      simp [EmuState.abstractStart]
  | some pp =>
    have hrun2 : ((s.abstractStart g b).loadState pp).isRunning = true := rfl
    have hceil : 0 ≤ (q * (((s.abstractStart g b).loadState pp).fps : ℚ)).ceil :=
      ceil_seconds_nonneg q _ hq
    refine ⟨framesResult (q * (s.fps : ℚ)).ceil.toNat
      ((s.abstractStart g b).loadState pp), ?_, ?_, ?_⟩
    · simp only [EmuState.start, hq2, if_false, hs, Bool.false_eq_true,
        runForXSeconds_eq _ q hrun2 hq]
      exact runForXFrames_ok _ _ hrun2 hceil
    · have h := (framesResult_spec (q * (s.fps : ℚ)).ceil.toNat
        ((s.abstractStart g b).loadState pp)).2.2.1
      simp only [EmuState.isRunning]
      rw [h]
      rfl
    · have h := (framesResult_spec (q * (s.fps : ℚ)).ceil.toNat
        ((s.abstractStart g b).loadState pp)).2.2.2.2.2
      rw [h]
      simp [EmuState.abstractStart, EmuState.loadState]

theorem stop_result (t : EmuState) (save' : Option String)
    (ht : t.isRunning = true) :
    ∃ t', t.stop save' = Except.ok t' ∧ t'.isRunning = false ∧
      t'.trace = t.trace ++
        (match save' with
         | some pp => [BackendEvent.pyboySaveState pp]
         | none => []) ++ [BackendEvent.pyboyStop] := by
  cases save' with
  | none =>
    refine ⟨t.abstractStop, ?_, rfl, by simp [EmuState.abstractStop]⟩
    simp [EmuState.stop, ht]
  | some pp =>
    refine ⟨(t.saveState pp).abstractStop, ?_, rfl,
      by simp [EmuState.abstractStop, EmuState.saveState]⟩
    simp [EmuState.stop, ht]

/-! ## The claims -/

/-- C1: for every running emulator and every non-negative number of
seconds `q`, `runForXSeconds q` behaves exactly as
`runForXFrames ⌈q * fps⌉` — it runs `ceil(q × fps)` frames — and the
`GameBoy` backend is constructed with fps 60. -/
theorem runForXSeconds_behaves_as_ceil_frames (s : EmuState) (q : ℚ)
    (hrun : s.isRunning = true) (hq : 0 ≤ q) :
    s.runForXSeconds q = s.runForXFrames ⌈q * (s.fps : ℚ)⌉ ∧
    gameBoyInit.fps = 60 := by
  refine ⟨?_, rfl⟩
  unfold EmuState.runForXSeconds
  rw [if_neg (not_lt.mpr hq), if_neg (by simp [hrun]), rat_ceil_eq_ceil]

/-- Witness for C1: the started `GameBoy` and one and a half seconds. -/
theorem runForXSeconds_behaves_as_ceil_frames_witness :
    demoRunning.isRunning = true ∧ (0 : ℚ) ≤ 3 / 2 ∧
    (demoRunning.runForXSeconds (3 / 2) =
        demoRunning.runForXFrames ⌈(3 / 2 : ℚ) * (demoRunning.fps : ℚ)⌉ ∧
      gameBoyInit.fps = 60) :=
  ⟨rfl, by norm_num,
   runForXSeconds_behaves_as_ceil_frames demoRunning (3 / 2) rfl (by norm_num)⟩

/-- C2: `pressButton`, `holdButton` (non-negative seconds), `runForXFrames`
and `runForXSeconds` (non-negative argument), `makeGIF` and `stop` raise
`NotRunning` on a stopped emulator, and `start` with a non-negative run
time raises `AlreadyRunning` on a running one. In this pure embedding an
operation that returns `Except.error` produced no successor state, so the
run state, screenshot list and button registry are untouched — matching
the source, where each of these assertions precedes any mutation. -/
theorem stopped_ops_raise (s t : EmuState)
    (hs : s.isRunning = false) (ht : t.isRunning = true)
    (name p g : String) (b save : Option String)
    (q : ℚ) (hq : 0 ≤ q) (n : Int) (hn : 0 ≤ n) :
    s.pressButton name = Except.error EmuError.notRunning ∧
    s.holdButton name q = Except.error EmuError.notRunning ∧
    s.runForXFrames n = Except.error EmuError.notRunning ∧
    s.runForXSeconds q = Except.error EmuError.notRunning ∧
    s.makeGIF p = Except.error EmuError.notRunning ∧
    s.stop save = Except.error EmuError.notRunning ∧
    t.start g b save q = Except.error EmuError.alreadyRunning := by
  refine ⟨?_, ?_, ?_, ?_, ?_, ?_, ?_⟩
  · simp [EmuState.pressButton, hs]
  · simp [EmuState.holdButton, hs]
  · simp [EmuState.runForXFrames, hs, not_lt.mpr hn]
  · simp [EmuState.runForXSeconds, hs, not_lt.mpr hq]
  · simp [EmuState.makeGIF, hs]
  · simp [EmuState.stop, hs]
  · simp [EmuState.start, ht, not_lt.mpr hq]

/-- Witness for C2: a fresh `GameBoy` is stopped, the started one is
running. -/
theorem stopped_ops_raise_witness :
    gameBoyInit.isRunning = false ∧ demoRunning.isRunning = true ∧
    (0 : ℚ) ≤ 1 ∧ (0 : Int) ≤ 2 ∧
    gameBoyInit.pressButton "a" = Except.error EmuError.notRunning ∧
    gameBoyInit.makeGIF "out.gif" = Except.error EmuError.notRunning ∧
    demoRunning.start "g.gb" none none 1 =
      Except.error EmuError.alreadyRunning := by
  obtain ⟨h1, h2, h3, h4, h5, h6, h7⟩ :=
    stopped_ops_raise gameBoyInit demoRunning rfl rfl "a" "out.gif" "g.gb"
      none none 1 (by norm_num) 2 (by norm_num)
  exact ⟨rfl, rfl, by norm_num, by norm_num, h1, h5, h7⟩

/-- C3: on a running emulator, `runForXFrames n` with `n ≥ 0` succeeds,
performs exactly `n` single-frame steps (`n` `tick` events) and appends
exactly `n` screenshots to the stored list, each screenshot taken
immediately after its frame (the trace is `n` copies of
tick-then-screenshot, see `frameEvents`); for `n = 0` nothing changes. -/
theorem runForXFrames_appends_n_screenshots (s : EmuState) (n : Int)
    (hrun : s.isRunning = true) (hn : 0 ≤ n) :
    s.runForXFrames n = Except.ok (framesResult n.toNat s) ∧
    (framesResult n.toNat s).screenShots =
      s.screenShots ++ imageIds s.nextImage n.toNat ∧
    (framesResult n.toNat s).screenShots.length =
      s.screenShots.length + n.toNat ∧
    (framesResult n.toNat s).trace =
      s.trace ++ frameEvents s.nextImage n.toNat ∧
    (frameEvents s.nextImage n.toNat).countP isTick = n.toNat ∧
    (frameEvents s.nextImage n.toNat).countP isShot = n.toNat ∧
    (n = 0 → framesResult n.toNat s = s) := by
  obtain ⟨h1, h2, h3, h4, h5, h6⟩ := framesResult_spec n.toNat s
  obtain ⟨⟨htick, hshot⟩, hlen⟩ := frameEvents_counts s.nextImage n.toNat
  refine ⟨runForXFrames_ok s n hrun hn, h5, ?_, h6, htick, hshot, ?_⟩
  · rw [h5, List.length_append, hlen]
  · intro h0; subst h0; rfl

/-- Witness for C3: two frames on the started `GameBoy`. -/
theorem runForXFrames_appends_n_screenshots_witness :
    demoRunning.isRunning = true ∧ (0 : Int) ≤ 2 ∧
    demoRunning.runForXFrames 2 =
      Except.ok (framesResult (Int.toNat 2) demoRunning) ∧
    (framesResult (Int.toNat 2) demoRunning).screenShots =
      demoRunning.screenShots ++ imageIds demoRunning.nextImage (Int.toNat 2) :=
  ⟨rfl, by norm_num,
   (runForXFrames_appends_n_screenshots demoRunning 2 rfl (by norm_num)).1,
   (runForXFrames_appends_n_screenshots demoRunning 2 rfl (by norm_num)).2.1⟩

/-- C4: on a running emulator `makeGIF` raises `NoScreenShotFramesSaved`
exactly when the stored screenshot list is empty (and then changes
nothing, the error carrying no successor state); otherwise it saves all
accumulated frames in accumulation order and resets the stored list to
empty. -/
theorem makeGIF_empty_iff_error (s : EmuState) (p : String)
    (hrun : s.isRunning = true) :
    (s.makeGIF p = Except.error EmuError.noScreenShotFramesSaved ↔
      s.screenShots = []) ∧
    (s.screenShots ≠ [] →
      s.makeGIF p =
        Except.ok
          { s with
            screenShots := [],
            trace := s.trace ++ [BackendEvent.gifSaved p s.screenShots] }) := by
  unfold EmuState.makeGIF
  rw [if_neg (by simp [hrun])]
  by_cases he : s.screenShots.length = 0
  · rw [if_pos he]
    have hnil : s.screenShots = [] := List.length_eq_zero.mp he
    exact ⟨by simp [hnil], fun hne => absurd hnil hne⟩
  · rw [if_neg he]
    have hne : s.screenShots ≠ [] := fun hh => he (by simp [hh])
    refine ⟨⟨fun hcontr => absurd hcontr (by simp), fun hempty =>
      absurd hempty hne⟩, fun _ => rfl⟩

/-- Witness for C4: the started `GameBoy` has no stored screenshots, so
`makeGIF` raising is equivalent to the (true) emptiness. -/
theorem makeGIF_empty_iff_error_witness :
    demoRunning.isRunning = true ∧
    (demoRunning.makeGIF "out.gif" =
        Except.error EmuError.noScreenShotFramesSaved ↔
      demoRunning.screenShots = []) :=
  ⟨rfl, (makeGIF_empty_iff_error demoRunning "out.gif" rfl).1⟩

/-- C5: `start` performs its steps in order — backend start, then the
save-state load when a path is given, then a run of `numberOfSecondsToRun`
seconds (`⌈q·fps⌉` frames) — as witnessed by the backend event trace; and
`stop` saves the state (when a path is given) before stopping the backend,
after which the emulator is no longer running. -/
theorem start_stop_event_order (s t : EmuState) (g : String)
    (b save save' : Option String) (q : ℚ) (hq : 0 ≤ q)
    (hs : s.isRunning = false) (ht : t.isRunning = true) :
    (∃ s', s.start g b save q = Except.ok s' ∧ s'.isRunning = true ∧
      s'.trace = s.trace ++ [BackendEvent.pyboyStart g b] ++
        (match save with
         | some pp => [BackendEvent.pyboyLoadState pp]
         | none => []) ++
        frameEvents s.nextImage (q * (s.fps : ℚ)).ceil.toNat) ∧
    (∃ t', t.stop save' = Except.ok t' ∧ t'.isRunning = false ∧
      t'.trace = t.trace ++
        (match save' with
         | some pp => [BackendEvent.pyboySaveState pp]
         | none => []) ++ [BackendEvent.pyboyStop]) :=
  ⟨start_result s g b save q hq hs, stop_result t save' ht⟩

/-- Witness for C5: starting a fresh `GameBoy` with a save-state path and
stopping the started one with a save path. -/
theorem start_stop_event_order_witness :
    (0 : ℚ) ≤ 1 ∧ gameBoyInit.isRunning = false ∧
    demoRunning.isRunning = true ∧
    ((∃ s', gameBoyInit.start "g.gb" (some "boot.gb") (some "sv") 1 =
        Except.ok s' ∧ s'.isRunning = true ∧
        s'.trace = gameBoyInit.trace ++
          [BackendEvent.pyboyStart "g.gb" (some "boot.gb")] ++
          (match (some "sv" : Option String) with
           | some pp => [BackendEvent.pyboyLoadState pp]
           | none => []) ++
          frameEvents gameBoyInit.nextImage
            ((1 : ℚ) * (gameBoyInit.fps : ℚ)).ceil.toNat) ∧
      (∃ t', demoRunning.stop (some "sv") = Except.ok t' ∧
        t'.isRunning = false ∧
        t'.trace = demoRunning.trace ++
          (match (some "sv" : Option String) with
           | some pp => [BackendEvent.pyboySaveState pp]
           | none => []) ++ [BackendEvent.pyboyStop])) :=
  ⟨by norm_num, rfl, rfl,
   start_stop_event_order gameBoyInit demoRunning "g.gb" (some "boot.gb")
     (some "sv") (some "sv") 1 (by norm_num) rfl rfl⟩

/-- C6, evaluated at the failing input: on a running `GameBoy`, looking up
the unregistered button name "x" executes
`raise ButtonNotReconized(buttonName)`, an undefined identifier, so
`pressButton` and `holdButton` raise Python `NameError` — not the defined
`ButtonNotRecognized` exception the claim (and the code's own log message
and exception class) intend. -/
theorem unknown_button_raises_nameError :
    gameBoyInit.start "demo.gb" none none 0 = Except.ok demoRunning ∧
    dictGet (pyLower "x") demoRunning.buttons = none ∧
    demoRunning.getButton "x" =
      Except.error (EmuError.nameError "ButtonNotReconized") ∧
    demoRunning.pressButton "x" =
      Except.error (EmuError.nameError "ButtonNotReconized") ∧
    demoRunning.holdButton "x" 1 =
      Except.error (EmuError.nameError "ButtonNotReconized") ∧
    EmuError.nameError "ButtonNotReconized" ≠
      EmuError.buttonNotRecognized "x" := by
  have hs : gameBoyInit.isRunning = false := rfl
  have h1 : (gameBoyInit.abstractStart "demo.gb" none).isRunning = true := rfl
  have hstart : gameBoyInit.start "demo.gb" none none 0 =
      Except.ok demoRunning := by
    simp only [EmuState.start, lt_self_iff_false, if_false, hs,
      Bool.false_eq_true, runForXSeconds_eq _ 0 h1 le_rfl, zero_mul]
    rfl
  exact ⟨hstart, rfl, rfl, rfl, rfl, by simp⟩

/-- C9 counterexample: the lifecycle state machine of the controller does
not have four states — `isRunning` is a boolean, so there are exactly two
observable lifecycle states, both realized. -/
theorem runState_card_ne_four :
    Fintype.card RunState = 2 ∧ ¬ (Fintype.card RunState = 4) ∧
    runStateOf gameBoyInit = RunState.notRunning ∧
    runStateOf demoRunning = RunState.running := by
  refine ⟨?_, ?_, rfl, rfl⟩ <;> decide

/-- C9 as amended: the lifecycle state machine has exactly two states,
with the transitions not-running → running (`start`) and running →
not-running (`stop`). -/
theorem runState_two_state_machine (s t : EmuState) (g : String)
    (b save save' : Option String) (q : ℚ) (hq : 0 ≤ q)
    (hs : runStateOf s = RunState.notRunning)
    (ht : runStateOf t = RunState.running) :
    Fintype.card RunState = 2 ∧
    (∃ s', s.start g b save q = Except.ok s' ∧
      runStateOf s' = RunState.running) ∧
    (∃ t', t.stop save' = Except.ok t' ∧
      runStateOf t' = RunState.notRunning) := by
  have hs2 : s.isRunning = false := by
    by_cases h : s.isRunning = true
    · rw [runStateOf, if_pos h] at hs; cases hs
    · simpa using h
  have ht2 : t.isRunning = true := by
    by_cases h : t.isRunning = true
    · exact h
    · rw [runStateOf, if_neg (by simpa using h)] at ht; cases ht
  obtain ⟨s', hok, hrun, _⟩ := start_result s g b save q hq hs2
  obtain ⟨t', hok2, hrun2, _⟩ := stop_result t save' ht2
  refine ⟨by decide, ⟨s', hok, ?_⟩, ⟨t', hok2, ?_⟩⟩
  · rw [runStateOf, if_pos hrun]
  · rw [runStateOf, if_neg (by simp [hrun2])]

/-- Witness for C9: the fresh `GameBoy` is not running, the started one
is. -/
theorem runState_two_state_machine_witness :
    (0 : ℚ) ≤ 0 ∧ runStateOf gameBoyInit = RunState.notRunning ∧
    runStateOf demoRunning = RunState.running ∧
    (Fintype.card RunState = 2 ∧
      (∃ s', gameBoyInit.start "g.gb" none none 0 = Except.ok s' ∧
        runStateOf s' = RunState.running) ∧
      (∃ t', demoRunning.stop none = Except.ok t' ∧
        runStateOf t' = RunState.notRunning)) :=
  ⟨le_refl 0, rfl, rfl,
   runState_two_state_machine gameBoyInit demoRunning "g.gb" none none none
     0 (le_refl 0) rfl rfl⟩

/-- C10: button handling is case-insensitive — `_registerButton` stores a
button under its lowercased name, `buttonNames` returns only lowercase
names, and `pressButton`/`holdButton` treat a name, any capitalization
variant of it, and its lowercase form identically. -/
theorem button_case_insensitive (s : EmuState) (bc : ButtonCode)
    (name c : String) (q : ℚ) (hvar : pyLower c = pyLower name) :
    dictGet (pyLower bc.name) (s.registerButton bc).buttons = some bc ∧
    (∀ nm, nm ∈ s.buttonNames → pyLower nm = nm) ∧
    s.pressButton name = s.pressButton (pyLower name) ∧
    s.holdButton name q = s.holdButton (pyLower name) q ∧
    s.pressButton c = s.pressButton name ∧
    s.holdButton c q = s.holdButton name q := by
  have hgbc : s.getButton c = s.getButton name := by
    unfold EmuState.getButton
    rw [hvar]
  refine ⟨?_, ?_, ?_, ?_, ?_, ?_⟩
  · exact dictGet_dictInsert_self (pyLower bc.name) bc s.buttons
  · intro nm hnm
    simp only [EmuState.buttonNames, List.mem_map] at hnm
    obtain ⟨p, _, hp⟩ := hnm
    rw [← hp, pyLower_idem]
  · simp only [EmuState.pressButton, getButton_lower]
  · simp only [EmuState.holdButton, getButton_lower]
  · simp only [EmuState.pressButton, hgbc]
  · simp only [EmuState.holdButton, hgbc]

/-- Witness for C10: the variant "A" of the registered button "a" on the
fresh `GameBoy`. -/
theorem button_case_insensitive_witness :
    pyLower "A" = pyLower "a" ∧
    (dictGet (pyLower (ButtonCode.mk "Se" 4 5).name)
        (gameBoyInit.registerButton (ButtonCode.mk "Se" 4 5)).buttons =
      some (ButtonCode.mk "Se" 4 5)) ∧
    gameBoyInit.pressButton "A" = gameBoyInit.pressButton "a" :=
  ⟨by decide,
   (button_case_insensitive gameBoyInit (ButtonCode.mk "Se" 4 5) "a" "A" 1
     (by decide)).1,
   (button_case_insensitive gameBoyInit (ButtonCode.mk "Se" 4 5) "a" "A" 1
     (by decide)).2.2.2.2.1⟩

/-- C7, evaluated at the failing input: `demoConfig` has definitions
"alpha" (registered to channel 1) and "beta" (registered to channel 2),
with `channels_to_defs` and `defs_to_channels` mutually consistent.
`setup_delete_definition` on "alpha" persists the `game_defs` removal and
then raises `RuntimeError` while deleting every key of `channels_to_defs`
during iteration, so channel 1 stays registered to the deleted "alpha" and
"alpha" even keeps its `defs_to_channels` entry — the claim that exactly
the deleted game's own registrations are removed from both maps fails. -/
theorem delete_definition_wipes_registrations :
    setup_delete_definition true "alpha" demoConfig =
      ({ demoConfig with
          game_defs := [("beta", GameDef.mk "boot.gb" "beta.gb")] },
       CogOutcome.runtimeErrorDictChangedSize) ∧
    assocGet 1
      (setup_delete_definition true "alpha" demoConfig).1.channels_to_defs =
      some "alpha" ∧
    assocGet "alpha"
      (setup_delete_definition true "alpha" demoConfig).1.game_defs = none ∧
    assocGet "alpha"
      (setup_delete_definition true "alpha" demoConfig).1.defs_to_channels =
      some [1] := by
  refine ⟨?_, rfl, rfl, rfl⟩
  decide

/-- C8: the per-game lock in `on_message` makes chat button commands
single-flight: in every system reachable from a pool of pending button
commands, at most one task for the game is inside the critical section
(two button commands for the same game are never processed concurrently),
and any step that drops an arriving task — it found the lock held — leaves
the log of executed critical-section calls unchanged, so the dropped
command presses no button. -/
theorem on_message_single_flight (bodies : List (List HandlerAct))
    (sys : GameLockSystem) (h : LockReachable (lockInit bodies) sys) :
    mutualExclusion sys ∧
    (∀ sys' i, OnMessageStep sys sys' → sys.tasks i ≠ TaskState.dropped →
      sys'.tasks i = TaskState.dropped → sys'.log = sys.log) := by
  refine ⟨(lockInvariant_reachable bodies sys h).2, ?_⟩
  intro sys' i hstep hb ha
  exact lockStep_drop_preserves_log hstep i hb ha

/-- Witness for C8: with two pending commands, after task 0 acquires the
lock the reachable state is mutually exclusive, and dropping task 1 there
leaves the log unchanged. -/
theorem on_message_single_flight_witness :
    LockReachable (lockInit demoBodies) demoLockSys ∧
    mutualExclusion demoLockSys ∧
    demoDroppedSys.log = demoLockSys.log := by
  have harr : demoLockSys.tasks 1 =
      TaskState.arrived (handlerActs "b" (ButtonAction.hold 1)) := rfl
  have hreach : LockReachable (lockInit demoBodies) demoLockSys :=
    Relation.ReflTransGen.single
      (OnMessageStep.enter (lockInit demoBodies) 0
        (handlerActs "a" (ButtonAction.press 2)) rfl rfl)
  have hstep : OnMessageStep demoLockSys demoDroppedSys :=
    OnMessageStep.drop demoLockSys 1 (handlerActs "b" (ButtonAction.hold 1))
      harr rfl
  obtain ⟨hmutex, hdrop⟩ :=
    on_message_single_flight demoBodies demoLockSys hreach
  exact ⟨hreach, hmutex, hdrop demoDroppedSys 1 hstep (by rw [harr]; simp) rfl⟩

end RedEmulator
